import Mathlib

/-!
Shallow embedding of the request-pipeline configuration layer of the
nuecms/stripe-sdk repository (file `src/lib/sdk.ts`), together with
theorems settling the frozen claims about it.

Conventions of the embedding:
* JavaScript strings are `String`, JS numbers that the code uses as
  non-negative integers (timeouts, retry counts) are `Nat`, HTTP status
  codes are `Int` (a JS number used with `<=`/`<`).
* Optional (possibly-`undefined`) fields of a config object are `Option`.
* The JS `||` defaulting operator treats `undefined`, `0` and `""` as
  falsy; the `??` operator only treats `undefined`/`null` as nullish.
  Both are modelled explicitly below (`jsOrNat`, `jsOrStr`, `jsCoalesceNat`).
* A JS plain object used as a header map is modelled as an association
  list `List (String × String)`; the object spread
  `{ ...h, k: v, ... }` is modelled as appending the literal entries,
  with lookup (`getHeader`) taking the LAST binding, which gives the
  same observable map as the JS object (later keys win).
-/

/-- JS `x || d` for a possibly-undefined number `x`: `undefined` and `0`
are falsy, so both select the default. From `config.timeout || 10000`
in `stripeSdk`. -/
def jsOrNat (v : Option Nat) (d : Nat) : Nat :=
  match v with
  | none => d
  | some n => if n = 0 then d else n

/-- JS `x || d` for a possibly-undefined string `x`: `undefined` and the
empty string are falsy, so both select the default. From
`config.endpoint || defaultEndpoint` and
`config.apiVersion || defaultApiVersion` in `stripeSdk`. -/
def jsOrStr (v : Option String) (d : String) : String :=
  match v with
  | none => d
  | some s => if s = "" then d else s

/-- JS `x || d` where `x` is an always-present string (the interceptor
re-defaults `config.apiVersion || defaultApiVersion` on a field of type
`string`). Only `""` is falsy. -/
def jsOrStrP (s d : String) : String :=
  if s = "" then d else s

/-- JS `x ?? d`: only `undefined`/`null` select the default; `0` is
kept. From `config.maxRetries ?? 0` in `stripeSdk`. -/
def jsCoalesceNat (v : Option Nat) (d : Nat) : Nat :=
  v.getD d

/-- `const defaultEndpoint = 'https://api.stripe.com'` -/
def defaultEndpoint : String := "https://api.stripe.com"

/-- `const defaultApiVersion = '2025-04-30.basil'` -/
def defaultApiVersion : String := "2025-04-30.basil"

/-- The caller-facing `StripeSDKConfig` interface. `apiKey` is required;
`endpoint`, `timeout`, `maxRetries`, `apiVersion` are optional. The
opaque function-valued fields `cacheProvider` and
`customResponseTransformer` carry no data the claims touch and are
omitted from the embedding. -/
structure StripeSDKConfig where
  apiKey : String
  endpoint : Option String := none
  timeout : Option Nat := none
  maxRetries : Option Nat := none
  apiVersion : Option String := none

/-- The internal `ContextConfig` shape (`{ apiKey, timeout, endpoint,
apiVersion }`) handed to interceptors. -/
structure ContextConfig where
  apiKey : String
  timeout : Nat
  endpoint : String
  apiVersion : String

/-- The `SdkBuilderConfig` object `stripeSdk` assembles, with the nested
`config : ContextConfig` and the `validateStatus` predicate. The opaque
`cacheProvider` / `customResponseTransformer` fields are omitted. -/
structure SdkBuilderConfig where
  baseUrl : String
  maxRetries : Nat
  config : ContextConfig
  validateStatus : Int → Bool

/-- The configuration-assembly step of `stripeSdk` (`src/lib/sdk.ts`,
the `sdkConfig` object literal): defaults `baseUrl`/`endpoint` with
`||`, `timeout` with `||`, `apiVersion` with `||`, `maxRetries` with
`??`, and installs the status predicate `200 <= status && status < 500`. -/
def stripeSdkConfig (config : StripeSDKConfig) : SdkBuilderConfig :=
  { baseUrl := jsOrStr config.endpoint defaultEndpoint
    maxRetries := jsCoalesceNat config.maxRetries 0
    config :=
      { apiKey := config.apiKey
        timeout := jsOrNat config.timeout 10000
        endpoint := jsOrStr config.endpoint defaultEndpoint
        apiVersion := jsOrStr config.apiVersion defaultApiVersion }
    validateStatus := fun status => 200 ≤ status && status < 500 }

/-- Lookup in a JS-object-style header map: the LAST binding of a key
wins, mirroring `{ ...h, k: v }` where later literal keys override
spread-in keys. -/
def getHeader (h : List (String × String)) (k : String) : Option String :=
  h.foldl (fun acc p => if p.1 = k then some p.2 else acc) none

/-- The request-options object threaded through the request-phase
interceptor. The source passes a dynamic `options` record; the fields
the interceptor reads or writes (`path`, `headers`, `contentType`) are
modelled directly, and every other field of the dynamic record is
represented by `method`, `body` and the residual association list
`extra`, none of which the interceptor touches. -/
structure RequestOptions where
  path : String
  method : String
  body : String
  headers : List (String × String)
  contentType : Option String
  extra : List (String × String)

/-- `const isV2Endpoint = (path) => path.startsWith('/v2/')`: the
character sequence of `"/v2/"` is a prefix of the path's characters. -/
def isV2Endpoint (path : String) : Bool :=
  List.isPrefixOf "/v2/".data path.data

/-- The request-phase interceptor `reqInterceptor` registered by
`stripeSdk` (`src/lib/sdk.ts` lines 85-104). `requestId` stands for the
value `createRequestId()` returned for this call (the only
non-deterministic input). The header spread `{ ...options.headers,
'Authorization': ..., 'Stripe-Version': ..., 'Idempotency-Key': ... }`
is modelled by appending the three literal entries, with `getHeader`
taking the last binding. -/
def reqInterceptor (config : ContextConfig) (requestId : String)
    (options : RequestOptions) : RequestOptions :=
  let isV2 := isV2Endpoint options.path
  { options with
    headers := options.headers ++
      [("Authorization", "Bearer " ++ config.apiKey),
       ("Stripe-Version", jsOrStrP config.apiVersion defaultApiVersion),
       ("Idempotency-Key", requestId)]
    contentType :=
      if isV2 then some "application/json"
      else some "application/x-www-form-urlencoded" }

/-- Lowercase-hexadecimal alphabet `[0-9a-f]`. -/
def isLowerHex (c : Char) : Bool :=
  ('0' ≤ c && c ≤ '9') || ('a' ≤ c && c ≤ 'f')

/-- The string `crypto.randomUUID()` is specified to return: five
lowercase-hexadecimal groups of lengths 8, 4, 4, 4, 12 joined by four
hyphens (a version-4 UUID rendered in lowercase). -/
def IsUuid (s : String) : Prop :=
  ∃ g1 g2 g3 g4 g5 : List Char,
    g1.length = 8 ∧ g2.length = 4 ∧ g3.length = 4 ∧ g4.length = 4 ∧
    g5.length = 12 ∧
    (∀ c ∈ g1 ++ g2 ++ g3 ++ g4 ++ g5, isLowerHex c = true) ∧
    s.data = g1 ++ '-' :: (g2 ++ '-' :: (g3 ++ '-' :: (g4 ++ '-' :: g5)))

/-- `const createRequestId = () => randomUUID().replace(<hyphen regex, global>, '')`
from `src/lib/sdk.ts` lines 54-56. The argument is the UUID string
`randomUUID()` produced; the global replace of `-` by the empty string
deletes every hyphen, i.e. keeps exactly the non-hyphen characters. -/
def createRequestId (uuid : String) : String :=
  String.mk (uuid.data.filter (fun c => c != '-'))

/-- Splits a character list at the first occurrence of `c`, returning
the parts before and after it, or `none` when `c` does not occur. -/
def splitFirst (l : List Char) (c : Char) : Option (List Char × List Char) :=
  match l with
  | [] => none
  | x :: xs =>
    if x = c then some ([], xs)
    else
      match splitFirst xs c with
      | some (a, b) => some (x :: a, b)
      | none => none

def isAsciiAlpha (c : Char) : Bool :=
  ('a' ≤ c && c ≤ 'z') || ('A' ≤ c && c ≤ 'Z')

def isSchemeChar (c : Char) : Bool :=
  isAsciiAlpha c || ('0' ≤ c && c ≤ '9') || c = '+' || c = '-' || c = '.'

/-- Splits a character list at every occurrence of `c` (the pieces do
not contain `c`; n occurrences give n+1 pieces, empty pieces kept). -/
def splitOnChar (l : List Char) (c : Char) : List (List Char) :=
  match l with
  | [] => [[]]
  | x :: xs =>
    if x = c then [] :: splitOnChar xs c
    else
      match splitOnChar xs c with
      | [] => [[x]]
      | h :: t => (x :: h) :: t

/-- One `name=value` query pair as the WHATWG `URLSearchParams` parser
reads it: the part before the first `=` is the name, everything after
it (further `=` included) is the value; a segment with no `=` is a
name with value `""`. Percent-decoding is elided (the claims only
involve undecoded tokens). -/
def parseQueryPair (seg : List Char) : String × String :=
  match splitFirst seg '=' with
  | none => (String.mk seg, "")
  | some (n, v) => (String.mk n, String.mk v)

/-- The WHATWG `URLSearchParams` multimap of a raw query string:
`&`-separated segments, empty segments skipped. -/
def parseQueryParams (q : List Char) : List (String × String) :=
  ((splitOnChar q '&').filter (fun s => !s.isEmpty)).map parseQueryPair

/-- `searchParams.get(name)`: the value of the FIRST pair with that
name, or `null`. -/
def searchParamsGet (params : List (String × String)) (name : String) :
    Option String :=
  (params.find? (fun p => p.1 = name)).map (fun p => p.2)

/-- The outcome of `new URL(url)` restricted to what
`extractPageToken` consumes: the scheme and the parsed query pairs. -/
structure ParsedUrl where
  scheme : String
  queryParams : List (String × String)
deriving DecidableEq

/-- Model of the WHATWG `new URL(url)` constructor restricted to the
observations `extractPageToken` makes. A string parses exactly when it
begins with a scheme — a nonempty run of scheme characters starting
with an ASCII letter, terminated by `:` — otherwise the constructor
throws (here: `none`). The query is the part after the first `?` of
what precedes the first `#`. -/
def parseUrl (s : String) : Option ParsedUrl :=
  match splitFirst s.data ':' with
  | none => none
  | some (schemeChars, rest) =>
    match schemeChars with
    | [] => none
    | c0 :: cs =>
      if isAsciiAlpha c0 && cs.all isSchemeChar then
        let beforeFrag :=
          match splitFirst rest '#' with
          | none => rest
          | some (a, _) => a
        let query :=
          match splitFirst beforeFrag '?' with
          | none => ([] : List Char)
          | some (_, q) => q
        some ⟨String.mk (c0 :: cs), parseQueryParams query⟩
      else none

/-- `export function extractPageToken(url: string | null)`
(`src/lib/sdk.ts` lines 234-242): `null` and `""` (both falsy) give
`null`; a string that `new URL` rejects gives `null` via the
`try/catch`; otherwise the result is
`parsedUrl.searchParams.get('page_token')`. Total by construction —
the `catch` turns every parse failure into `null`, never a throw. -/
def extractPageToken (url : Option String) : Option String :=
  match url with
  | none => none
  | some u =>
    if u = "" then none
    else
      match parseUrl u with
      | none => none
      | some p => searchParamsGet p.queryParams "page_token"

/-- The outcome of one transport attempt: a delivered response with its
status, or a failure (transport error, timeout, or a status the
retryable rule classifies as a failure) carrying the status observed. -/
inductive AttemptOutcome where
  | delivered (status : Int)
  | failed (status : Int)
deriving DecidableEq

/-- Modelled from the spec: the Dispatcher retry loop of the
`@nuecms/sdk-builder` engine (spec section 4.4), whose source is not
under `src/` — only its caller `stripeSdk` is. State machine
`PREPARED -> SENT -> (SUCCEEDED | RETRYING -> SENT | FAILED)`:
the first attempt is always issued; after a failure, `SENT -> RETRYING`
only while the attempt count is below `maxRetries` and the failure
matches the retryable predicate. `outcomes n` is the result of the
n-th transport call (n starts at 1); the result pairs the number of
transport calls actually made with the terminal outcome. -/
def dispatchAux (outcomes : Nat → AttemptOutcome) (retryable : Int → Bool)
    (attempt : Nat) (fuel : Nat) : Nat × AttemptOutcome :=
  match outcomes attempt with
  | .delivered s => (attempt, .delivered s)
  | .failed s =>
    match fuel with
    | 0 => (attempt, .failed s)
    | f + 1 =>
      if retryable s then dispatchAux outcomes retryable (attempt + 1) f
      else (attempt, .failed s)

/-- Modelled from the spec: a full invocation of the Dispatcher with
retry budget `maxRetries` (spec sections 3 and 4.4: a `RetryPolicy`
with `maxRetries == 0` disables retry entirely, single attempt). -/
def dispatch (maxRetries : Nat) (outcomes : Nat → AttemptOutcome)
    (retryable : Int → Bool) : Nat × AttemptOutcome :=
  dispatchAux outcomes retryable 1 maxRetries

/-- A filter that every element passes is the identity; helper for the
idempotency-token theorem. -/
theorem filter_all_pass (p : Char → Bool) (l : List Char)
    (h : ∀ c ∈ l, p c = true) : l.filter p = l := by
  induction l with
  | nil => rfl
  | cons c t ih =>
    have hc : p c = true := h c (by simp)
    simp [List.filter_cons, hc, ih (fun x hx => h x (by simp [hx]))]

/-- C1: the request-phase interceptor installed by `stripeSdk` chooses
the content type by prefix of the resolved path: paths starting with
`/v2/` get `application/json`, all others get
`application/x-www-form-urlencoded`. -/
theorem reqInterceptor_contentType_by_path (config : ContextConfig)
    (requestId : String) (options : RequestOptions) :
    (reqInterceptor config requestId options).contentType =
      some (if List.isPrefixOf "/v2/".data options.path.data
            then "application/json"
            else "application/x-www-form-urlencoded") := by
  by_cases h : List.isPrefixOf "/v2/".data options.path.data <;>
    simp [reqInterceptor, isV2Endpoint, h]

/-- C2: `extractPageToken` returns the `page_token` query parameter of
a parseable URL and `none` when the input is absent, empty, or not a
parseable URL; on the three concrete inputs of the claim it returns
`some "abc123"`, `none`, `none`. Totality of the definition embeds the
never-throws requirement. -/
theorem extractPageToken_spec (u : String) :
    extractPageToken none = none ∧
    extractPageToken
      (some "https://api.example.com/v2/events?page_token=abc123")
      = some "abc123" ∧
    extractPageToken (some "not a url") = none ∧
    (parseUrl u = none → extractPageToken (some u) = none) ∧
    (∀ p : ParsedUrl, parseUrl u = some p →
      extractPageToken (some u) = searchParamsGet p.queryParams "page_token") := by
  refine ⟨rfl, by decide, by decide, ?_, ?_⟩
  · intro h
    by_cases hu : u = ""
    · simp [extractPageToken, hu]
    · simp [extractPageToken, hu, h]
  · intro p hp
    by_cases hu : u = ""
    · subst hu
      simp [parseUrl, splitFirst] at hp
    · simp [extractPageToken, hu, hp]

/-- C2 witness: the general clauses of `extractPageToken_spec` applied
at the concrete unparseable input. -/
theorem extractPageToken_spec_witness :
    parseUrl "not a url" = none ∧ extractPageToken (some "not a url") = none :=
  ⟨by decide, (extractPageToken_spec "not a url").2.2.2.1 (by decide)⟩

/-- C3 counterexample: a caller-supplied `Idempotency-Key` header is NOT
preserved — the literal assignments in the spread come after the
spread-in caller headers, so the fresh token wins. At this concrete
input the incoming options carry `Idempotency-Key: caller-supplied-key`,
yet the outgoing headers do not. -/
theorem reqInterceptor_overwrites_caller_key :
    getHeader
      ({ path := "/v1/charges", method := "POST", body := "",
         headers := [("Idempotency-Key", "caller-supplied-key")],
         contentType := none, extra := [] } : RequestOptions).headers
      "Idempotency-Key" = some "caller-supplied-key" ∧
    getHeader
      (reqInterceptor
        { apiKey := "sk_test_abc", timeout := 10000,
          endpoint := "https://api.stripe.com",
          apiVersion := "2025-04-30.basil" }
        "0123456789abcdef0123456789abcdef"
        { path := "/v1/charges", method := "POST", body := "",
          headers := [("Idempotency-Key", "caller-supplied-key")],
          contentType := none, extra := [] }).headers
      "Idempotency-Key" ≠ some "caller-supplied-key" := by
  refine ⟨by decide, ?_⟩
  decide

/-- C3 amended: the request-phase interceptor always sets the outgoing
`Idempotency-Key` header to the freshly generated token, replacing any
caller-supplied entry rather than preserving it. -/
theorem reqInterceptor_idempotency_key_is_fresh (config : ContextConfig)
    (requestId : String) (options : RequestOptions) :
    getHeader (reqInterceptor config requestId options).headers
      "Idempotency-Key" = some requestId := by
  simp [reqInterceptor, getHeader, List.foldl_append]

/-- C4: after the request-phase interceptor runs on the context built by
`stripeSdk`, the headers carry `Authorization: Bearer <apiKey>`,
`Stripe-Version` equal to the configured apiVersion (the module default
when none was configured), and an `Idempotency-Key` entry. -/
theorem reqInterceptor_standard_headers (userConfig : StripeSDKConfig)
    (requestId : String) (options : RequestOptions)
    (hv : userConfig.apiVersion = none ∨
          ∃ v, userConfig.apiVersion = some v ∧ v ≠ "") :
    getHeader (reqInterceptor (stripeSdkConfig userConfig).config requestId
        options).headers "Authorization"
      = some ("Bearer " ++ userConfig.apiKey) ∧
    getHeader (reqInterceptor (stripeSdkConfig userConfig).config requestId
        options).headers "Stripe-Version"
      = some (userConfig.apiVersion.getD defaultApiVersion) ∧
    getHeader (reqInterceptor (stripeSdkConfig userConfig).config requestId
        options).headers "Idempotency-Key"
      = some requestId := by
  obtain hv | ⟨v, hv, hne⟩ := hv
  · simp [reqInterceptor, getHeader, List.foldl_append, stripeSdkConfig,
      jsOrStr, jsOrStrP, defaultApiVersion, hv]
  · simp [reqInterceptor, getHeader, List.foldl_append, stripeSdkConfig,
      jsOrStr, jsOrStrP, defaultApiVersion, hv, hne]

/-- C4 witness: the headers at a concrete configuration with no
configured version, a concrete token and concrete request options. -/
theorem reqInterceptor_standard_headers_witness :
    getHeader (reqInterceptor (stripeSdkConfig { apiKey := "sk_test_abc" }).config
        "0123456789abcdef0123456789abcdef"
        { path := "/v1/customers", method := "POST", body := "",
          headers := [], contentType := none, extra := [] }).headers
      "Stripe-Version" = some defaultApiVersion :=
  (reqInterceptor_standard_headers { apiKey := "sk_test_abc" }
    "0123456789abcdef0123456789abcdef"
    { path := "/v1/customers", method := "POST", body := "",
      headers := [], contentType := none, extra := [] }
    (Or.inl rfl)).2.1

/-- C5: deleting the hyphens of a UUID (the shape `randomUUID()`
guarantees: five lowercase-hex groups of lengths 8-4-4-4-12 joined by
four hyphens) yields a 32-character string over `[0-9a-f]` with no
separator characters. -/
theorem createRequestId_hex32 (uuid : String) (h : IsUuid uuid) :
    (createRequestId uuid).length = 32 ∧
    (∀ c ∈ (createRequestId uuid).data, isLowerHex c = true) ∧
    '-' ∉ (createRequestId uuid).data := by
  obtain ⟨g1, g2, g3, g4, g5, h1, h2, h3, h4, h5, hhex, hdata⟩ := h
  have hne : ∀ c : Char, isLowerHex c = true → (c != '-') = true := by
    intro c hc
    cases hd : (c != '-') with
    | true => rfl
    | false =>
      have hcm : c = '-' := by simpa using hd
      subst hcm
      exact absurd hc (by decide)
  have hg1 : ∀ c ∈ g1, isLowerHex c = true :=
    fun c hc => hhex c (by simp [hc])
  have hg2 : ∀ c ∈ g2, isLowerHex c = true :=
    fun c hc => hhex c (by simp [hc])
  have hg3 : ∀ c ∈ g3, isLowerHex c = true :=
    fun c hc => hhex c (by simp [hc])
  have hg4 : ∀ c ∈ g4, isLowerHex c = true :=
    fun c hc => hhex c (by simp [hc])
  have hg5 : ∀ c ∈ g5, isLowerHex c = true :=
    fun c hc => hhex c (by simp [hc])
  have e : (createRequestId uuid).data = g1 ++ (g2 ++ (g3 ++ (g4 ++ g5))) := by
    simp [createRequestId, hdata, List.filter_append,
      filter_all_pass _ g1 (fun c hc => hne c (hg1 c hc)),
      filter_all_pass _ g2 (fun c hc => hne c (hg2 c hc)),
      filter_all_pass _ g3 (fun c hc => hne c (hg3 c hc)),
      filter_all_pass _ g4 (fun c hc => hne c (hg4 c hc)),
      filter_all_pass _ g5 (fun c hc => hne c (hg5 c hc))]
  refine ⟨?_, ?_, ?_⟩
  · have : (createRequestId uuid).length = (createRequestId uuid).data.length := rfl
    rw [this, e]
    simp [h1, h2, h3, h4, h5]
  · intro c hc
    rw [e] at hc
    simp only [List.mem_append] at hc
    rcases hc with hc | hc | hc | hc | hc
    · exact hg1 c hc
    · exact hg2 c hc
    · exact hg3 c hc
    · exact hg4 c hc
    · exact hg5 c hc
  · intro hc
    rw [e] at hc
    simp only [List.mem_append] at hc
    have : isLowerHex '-' = true := by
      rcases hc with hc | hc | hc | hc | hc
      · exact hg1 _ hc
      · exact hg2 _ hc
      · exact hg3 _ hc
      · exact hg4 _ hc
      · exact hg5 _ hc
    exact absurd this (by decide)

/-- C5 witness: a concrete version-4 UUID, its group decomposition, and
the resulting 32-character token. -/
theorem createRequestId_hex32_witness :
    (createRequestId "123e4567-e89b-42d3-a456-426614174000").length = 32 :=
  (createRequestId_hex32 "123e4567-e89b-42d3-a456-426614174000"
    ⟨"123e4567".data, "e89b".data, "42d3".data, "a456".data,
     "426614174000".data, by decide, by decide, by decide, by decide,
     by decide, by decide, by decide⟩).1

/-- C6: the `validateStatus` predicate installed by `stripeSdk` accepts
a status exactly when it lies in the interval [200, 500). -/
theorem validateStatus_iff (config : StripeSDKConfig) (status : Int) :
    (stripeSdkConfig config).validateStatus status = true ↔
      200 ≤ status ∧ status < 500 := by
  simp [stripeSdkConfig]

/-- C6 witness: 404 is inside the delivered interval at a concrete
configuration. -/
theorem validateStatus_iff_witness :
    (stripeSdkConfig { apiKey := "sk_test_abc" }).validateStatus 404 = true :=
  (validateStatus_iff { apiKey := "sk_test_abc" } 404).mpr (by decide)

/-- C7: with `timeout`, `maxRetries` and `endpoint` omitted, `stripeSdk`
configures timeout 10000 ms, maxRetries 0, and the default base URL. -/
theorem stripeSdk_omitted_defaults (config : StripeSDKConfig)
    (ht : config.timeout = none) (hr : config.maxRetries = none)
    (he : config.endpoint = none) :
    (stripeSdkConfig config).config.timeout = 10000 ∧
    (stripeSdkConfig config).maxRetries = 0 ∧
    (stripeSdkConfig config).baseUrl = "https://api.stripe.com" := by
  simp [stripeSdkConfig, jsOrNat, jsOrStr, jsCoalesceNat, defaultEndpoint,
    ht, hr, he]

/-- C7 witness: the defaults at a concrete config that only supplies the
API key. -/
theorem stripeSdk_omitted_defaults_witness :
    (stripeSdkConfig { apiKey := "sk_test_abc" }).config.timeout = 10000 :=
  (stripeSdk_omitted_defaults { apiKey := "sk_test_abc" } rfl rfl rfl).1

/-- C8: with `maxRetries = 0` the Dispatcher performs exactly one
transport call, and when that attempt fails the failure is the
immediate terminal result — no retry happens. -/
theorem dispatch_zero_retries_single_call (outcomes : Nat → AttemptOutcome)
    (retryable : Int → Bool) (s : Int)
    (h : outcomes 1 = AttemptOutcome.failed s) :
    (dispatch 0 outcomes retryable).1 = 1 ∧
    dispatch 0 outcomes retryable = (1, AttemptOutcome.failed s) := by
  have e : dispatch 0 outcomes retryable = (1, AttemptOutcome.failed s) := by
    simp [dispatch, dispatchAux, h]
  exact ⟨by rw [e], e⟩

/-- C8 witness: a transport that always fails with 503, no retry
budget: one call, terminal failure. -/
theorem dispatch_zero_retries_single_call_witness :
    dispatch 0 (fun _ => AttemptOutcome.failed 503) (fun _ => true)
      = (1, AttemptOutcome.failed 503) :=
  (dispatch_zero_retries_single_call (fun _ => AttemptOutcome.failed 503)
    (fun _ => true) 503 rfl).2

/-- C9: the request-phase interceptor only touches the headers map and
the content-type field: `path`, `method`, `body` and every other field
of the options record are returned unchanged, and every header whose
name is none of Authorization, Stripe-Version, Idempotency-Key,
Content-Type keeps its original value. -/
theorem reqInterceptor_frame (config : ContextConfig) (requestId : String)
    (options : RequestOptions) :
    (reqInterceptor config requestId options).path = options.path ∧
    (reqInterceptor config requestId options).method = options.method ∧
    (reqInterceptor config requestId options).body = options.body ∧
    (reqInterceptor config requestId options).extra = options.extra ∧
    ∀ k : String, k ≠ "Authorization" → k ≠ "Stripe-Version" →
      k ≠ "Idempotency-Key" → k ≠ "Content-Type" →
      getHeader (reqInterceptor config requestId options).headers k
        = getHeader options.headers k := by
  refine ⟨rfl, rfl, rfl, rfl, ?_⟩
  intro k h1 h2 h3 _h4
  simp [reqInterceptor, getHeader, List.foldl_append,
    Ne.symm h1, Ne.symm h2, Ne.symm h3]

/-- C9 witness: a custom pre-existing header survives the interceptor
with its original value at a concrete input. -/
theorem reqInterceptor_frame_witness :
    getHeader
      (reqInterceptor
        { apiKey := "sk_test_abc", timeout := 10000,
          endpoint := "https://api.stripe.com",
          apiVersion := "2025-04-30.basil" }
        "0123456789abcdef0123456789abcdef"
        { path := "/v1/charges", method := "POST", body := "",
          headers := [("X-Custom", "keep")], contentType := none,
          extra := [] }).headers "X-Custom" = some "keep" :=
  ((reqInterceptor_frame
    { apiKey := "sk_test_abc", timeout := 10000,
      endpoint := "https://api.stripe.com",
      apiVersion := "2025-04-30.basil" }
    "0123456789abcdef0123456789abcdef"
    { path := "/v1/charges", method := "POST", body := "",
      headers := [("X-Custom", "keep")], contentType := none,
      extra := [] }).2.2.2.2 "X-Custom"
    (by decide) (by decide) (by decide) (by decide)).trans (by decide)

/-- C10: falsy-but-present construction values — `timeout: 0`,
`endpoint: ''`, `apiVersion: ''` — are replaced by the defaults
(logical-or defaulting), while an explicit `maxRetries: 0` is kept as 0
(nullish-coalescing defaulting). -/
theorem stripeSdk_falsy_vs_nullish :
    (stripeSdkConfig { apiKey := "sk_test_abc", timeout := some 0
      }).config.timeout = 10000 ∧
    (stripeSdkConfig { apiKey := "sk_test_abc", endpoint := some ""
      }).baseUrl = "https://api.stripe.com" ∧
    (stripeSdkConfig { apiKey := "sk_test_abc", apiVersion := some ""
      }).config.apiVersion = defaultApiVersion ∧
    (stripeSdkConfig { apiKey := "sk_test_abc", maxRetries := some 0
      }).maxRetries = 0 := by
  refine ⟨by decide, by decide, by decide, by decide⟩
